import Mathlib

set_option maxRecDepth 8000

/-!
Shallow embedding of the cloud-lifecycle-controller node reconciliation
engine: provider-ID derivation (AWS / Azure), the instance-status
classifier, and the per-pass reconciliation decision logic.

Go strings are modelled as lists of characters (`GoStr`); Go runtime
panics (out-of-range slices) are modelled by an outer `Option`, with
`none` standing for a panic.  Externally observable effects of a pass
(provider queries, event emission, cluster-record deletion) are recorded
in an explicit trace.
-/

namespace CloudLifecycle

/-- Go strings, modelled as lists of characters. -/
abbrev GoStr := List Char

/-- `'0' <= c && c <= '9'`, the digit test used by Go strconv base-10 parsing. -/
def isDigitChar (c : Char) : Bool := 48 ≤ c.toNat && c.toNat ≤ 57

/-- Numeric value of a decimal digit character. -/
def digitVal (c : Char) : Nat := c.toNat - 48

/-- The decimal digit character for a value below 10. -/
def digitChar (n : Nat) : Char := Char.ofNat (48 + n)

/-- Value of a big-endian string of decimal digits. -/
def digitsVal (s : GoStr) : Nat := s.foldl (fun a c => 10 * a + digitVal c) 0

/-- Go `strconv.ParseUint(s, 10, 64)`: succeeds iff `s` is nonempty, every
character is a decimal digit, and the value fits in 64 bits. -/
def goParseUint (s : GoStr) : Option Nat :=
  if s = [] then none
  else if s.all isDigitChar then
    if digitsVal s < 2 ^ 64 then some (digitsVal s) else none
  else none

/-- Digit-accumulation loop of Go `strconv.FormatUint(n, 10)`, with explicit
fuel (the loop runs at most `n` times since `n` shrinks by `/ 10`). -/
def formatCore : Nat → Nat → GoStr → GoStr
  | 0, _, acc => acc
  | fuel + 1, n, acc =>
    if n < 10 then digitChar n :: acc
    else formatCore fuel (n / 10) (digitChar (n % 10) :: acc)

/-- Go `strconv.FormatUint(n, 10)`: the canonical decimal rendering of `n`,
with no leading zeros (and `"0"` for zero). -/
def goFormatUint (n : Nat) : GoStr := formatCore (n + 1) n []

/-- Go `strings.Contains s sub`. -/
def goContains : GoStr → GoStr → Bool
  | [], sub => sub.isEmpty
  | c :: t, sub => sub.isPrefixOf (c :: t) || goContains t sub

/-- Go `strings.Split s sep` for a one-character separator: the list of
(possibly empty) segments of `s` between occurrences of `sep`. -/
def goSplit (sep : Char) : GoStr → List GoStr
  | [] => [[]]
  | c :: t =>
    match goSplit sep t with
    | [] => [[]]
    | p :: ps => if c = sep then [] :: p :: ps else (c :: p) :: ps

/-- Go `s[i:]` — `none` models the runtime panic on an out-of-range index. -/
def goSliceFrom (s : GoStr) (i : Int) : Option GoStr :=
  if 0 ≤ i ∧ i ≤ (s.length : Int) then some (s.drop i.toNat) else none

/-- Go `error` values appearing in the controller: the two sentinel errors of
the provider-ID package, ad-hoc `errors.New` values, and errors returned by
cloud-provider API calls. -/
inductive GoErr
  | providerNotSupported
  | invalidVMName
  | goError (msg : GoStr)
  | providerErr (msg : GoStr)
deriving DecidableEq

/-- The `Error()` string of a `GoErr`. -/
def goErrMsg : GoErr → GoStr
  | GoErr.providerNotSupported => ("provider not supported".toList)
  | GoErr.invalidVMName => ("vm id is invalid".toList)
  | GoErr.goError m => m
  | GoErr.providerErr m => m

/-- `isAWSNotFoundErr`: the tolerance predicate — the error message contains
the substring `"does not exist"`. -/
def isAWSNotFoundErr (e : GoErr) : Bool := goContains (goErrMsg e) ("does not exist".toList)

instance {α β : Type} [DecidableEq α] [DecidableEq β] : DecidableEq (Except α β) := fun x y =>
  match x, y with
  | Except.ok a, Except.ok b =>
    match decEq a b with
    | isTrue h => isTrue (congrArg Except.ok h)
    | isFalse h => isFalse (fun hh => h (Except.ok.inj hh))
  | Except.error a, Except.error b =>
    match decEq a b with
    | isTrue h => isTrue (congrArg Except.error h)
    | isFalse h => isFalse (fun hh => h (Except.error.inj hh))
  | Except.ok _, Except.error _ => isFalse (fun hh => Except.noConfusion hh)
  | Except.error _, Except.ok _ => isFalse (fun hh => Except.noConfusion hh)

/-- A fallible Go computation: `none` is a runtime panic, `some` carries the
usual `(value, err)` outcome. -/
abbrev GoRes (α : Type) := Option (Except GoErr α)

/-- The provider-specific configuration carried by an `azure.Cloud`. -/
structure AzureConfig where
  subscriptionID : GoStr
  resourceGroup : GoStr
  vmType : GoStr
deriving DecidableEq

/-- The dynamic type of the cloud handle: either a genuine `*azure.Cloud`
(with its configuration) or any other implementation of the interface. -/
inductive CloudKind
  | azureCloud (cfg : AzureConfig)
  | otherKind
deriving DecidableEq

/-- A `cloudprovider.Interface` handle: the name it reports via
`ProviderName()` together with its dynamic type. -/
structure Cloud where
  providerName : GoStr
  kind : CloudKind
deriving DecidableEq

/-- A node's condition entry (type and tri-state status, both strings). -/
structure NodeCondition where
  condType : GoStr
  status : GoStr
deriving DecidableEq

/-- The fields of a `corev1.Node` read by the controller. -/
structure Node where
  name : GoStr
  providerID : GoStr
  conditions : List NodeCondition
deriving DecidableEq

/-- `awsProviderIDBuilder`: split the node name on `-`; require exactly four
segments with the third equal to `"i"`; build `aws:///<seg3>-<seg4>`. -/
def awsProviderIDBuilder (_cloud : Cloud) (node : Node) : GoRes GoStr :=
  let parts := goSplit '-' node.name
  if parts.length ≠ 4 ∨ parts.getD 2 [] ≠ ("i".toList) then
    some (Except.error GoErr.invalidVMName)
  else
    some (Except.ok (("aws:///".toList) ++ parts.getD 2 [] ++ [Char.ofNat 45] ++ parts.getD 3 []))

/-- `extractAzureVMID`: parse the fixed-width slice `name[len(name)-6:]` as an
unsigned integer and re-render it in decimal.  The slice panics (`none`) when
the name is shorter than six characters. -/
def extractAzureVMID (name : GoStr) : GoRes GoStr :=
  match goSliceFrom name ((name.length : Int) - 6) with
  | none => none
  | some suffix =>
    match goParseUint suffix with
    | none => some (Except.error GoErr.invalidVMName)
    | some u => some (Except.ok (goFormatUint u))

/-- `extractAzureScaleSet`: the name minus its last six characters; names of
length at most six are rejected. -/
def extractAzureScaleSet (name : GoStr) : Except GoErr GoStr :=
  if name.length ≤ 6 then Except.error GoErr.invalidVMName
  else Except.ok (name.take (name.length - 6))

/-- `azureProviderIDBuilder`: require a genuine azure cloud handle, extract
the scale set and the VM ordinal, and compose the identifier path according
to the configured VM type. -/
def azureProviderIDBuilder (cloud : Cloud) (node : Node) : GoRes GoStr :=
  match cloud.kind with
  | CloudKind.otherKind => some (Except.error (GoErr.goError ("cloud provider is not azure".toList)))
  | CloudKind.azureCloud cfg =>
    match extractAzureScaleSet node.name with
    | Except.error e => some (Except.error e)
    | Except.ok scaleset =>
      match extractAzureVMID node.name with
      | none => none
      | some (Except.error e) => some (Except.error e)
      | some (Except.ok vmID) =>
        if cfg.vmType = ("vmss".toList) then
          some (Except.ok (("azure:///subscriptions/".toList) ++ cfg.subscriptionID ++
            ("/resourceGroups/".toList) ++ cfg.resourceGroup ++
            ("/providers/Microsoft.Compute/virtualMachineScaleSets/".toList) ++ scaleset ++
            ("/virtualMachines/".toList) ++ vmID))
        else
          some (Except.ok (("azure:///subscriptions/".toList) ++ cfg.subscriptionID ++
            ("/resourceGroups/".toList) ++ cfg.resourceGroup ++
            ("/virtualMachines/".toList) ++ vmID))

/-- The `providerIDBuilders` dispatch table, keyed by provider name. -/
def providerIDBuilders (name : GoStr) : Option (Cloud → Node → GoRes GoStr) :=
  if name = ("azure".toList) then some azureProviderIDBuilder
  else if name = ("aws".toList) then some awsProviderIDBuilder
  else none

/-- `generateProviderID`: dispatch on the cloud's reported provider name;
unknown names fail with `ErrProviderNotSupported`. -/
def generateProviderID (cloud : Cloud) (node : Node) : GoRes GoStr :=
  match providerIDBuilders cloud.providerName with
  | none => some (Except.error GoErr.providerNotSupported)
  | some f => f cloud node

/-- Externally observable effects of one reconciliation pass:
derivation of a provider ID, the two provider queries, event emission, and
cluster-record deletion. -/
inductive TraceEv
  | derive
  | queryExists (pid : GoStr)
  | queryShutdown (pid : GoStr)
  | emitEvent (evType reason msg : GoStr)
  | deleteNode (name : GoStr)
deriving DecidableEq

/-- Whether a trace event is an event emission. -/
def isEmitEv : TraceEv → Bool
  | TraceEv.emitEvent _ _ _ => true
  | _ => false

/-- Whether a trace event is a cluster-record deletion. -/
def isDeleteEv : TraceEv → Bool
  | TraceEv.deleteNode _ => true
  | _ => false

/-- Whether a trace event is an instance-shutdown provider query. -/
def isShutdownQueryEv : TraceEv → Bool
  | TraceEv.queryShutdown _ => true
  | _ => false

/-- The classifier's verdict on a node's backing instance. -/
inductive providerNodeStatus
  | providerNodeStatusUnknown
  | providerNodeStatusShutdown
  | providerNodeStatusNotFound
deriving DecidableEq

/-- `providerNodeStatus.String()`. -/
def providerNodeStatus.String : providerNodeStatus → GoStr
  | providerNodeStatus.providerNodeStatusShutdown => ("Shutdown".toList)
  | providerNodeStatus.providerNodeStatusNotFound => ("Not Found".toList)
  | providerNodeStatus.providerNodeStatusUnknown => ("Unknown".toList)

/-- The `deleteNodeEvent` constant. -/
def deleteNodeEvent : GoStr := ("DeletingNode".toList)

/-- The outcome `(value, err)` of one provider boolean query. -/
structure GoBoolErr where
  val : Bool
  err : Option GoErr
deriving DecidableEq

/-- The provider's responses to the (at most one each) existence and
shutdown queries of a single pass. -/
structure ProviderResponses where
  existsRes : GoBoolErr
  shutdownRes : GoBoolErr
deriving DecidableEq

/-- The reconciler's per-process configuration relevant to the decision
logic: the cloud handle and the dry-run flag. -/
structure nodeReconciler where
  cloud : Cloud
  dryRun : Bool
deriving DecidableEq

/-- `ctrl.Result`: only the `Requeue` flag is ever set by this controller. -/
structure CtrlResult where
  requeue : Bool
deriving DecidableEq

/-- Go `err != nil && !isAWSNotFoundErr(err)`: a hard provider fault, as
opposed to a tolerated not-found-shaped error. -/
def isFatal : Option GoErr → Bool
  | none => false
  | some e => !(isAWSNotFoundErr e)

/-- `getProviderID`: a non-empty recorded `node.Spec.ProviderID` is returned
unchanged; otherwise derivation is invoked (recorded as a `derive` trace
event). -/
def getProviderID (cloud : Cloud) (node : Node) : GoRes GoStr × List TraceEv :=
  if node.providerID ≠ [] then (some (Except.ok node.providerID), [])
  else (generateProviderID cloud node, [TraceEv.derive])

/-- `nodeStatus`: resolve the provider ID, query instance existence (fatal
errors abort with `Unknown`; not-found-shaped errors are tolerated), return
`NotFound` on a false existence flag, otherwise query shutdown the same way
and return `Shutdown` on a true shutdown flag, else `Unknown`. -/
def nodeStatus (r : nodeReconciler) (node : Node) (resp : ProviderResponses) :
    Option (providerNodeStatus × Option GoErr) × List TraceEv :=
  match getProviderID r.cloud node with
  | (none, tr) => (none, tr)
  | (some (Except.error e), tr) =>
    (some (providerNodeStatus.providerNodeStatusUnknown, some e), tr)
  | (some (Except.ok providerID), tr) =>
    let tr1 := tr ++ [TraceEv.queryExists providerID]
    if isFatal resp.existsRes.err then
      (some (providerNodeStatus.providerNodeStatusUnknown, resp.existsRes.err), tr1)
    else if resp.existsRes.val = false then
      (some (providerNodeStatus.providerNodeStatusNotFound, none), tr1)
    else
      let tr2 := tr1 ++ [TraceEv.queryShutdown providerID]
      if isFatal resp.shutdownRes.err then
        (some (providerNodeStatus.providerNodeStatusUnknown, resp.shutdownRes.err), tr2)
      else if resp.shutdownRes.val then
        (some (providerNodeStatus.providerNodeStatusShutdown, none), tr2)
      else
        (some (providerNodeStatus.providerNodeStatusUnknown, none), tr2)

/-- `reconcileNode`: classify the node; `Unknown` requeues with no error;
otherwise emit the `DeletingNode` event and, unless dry-run is set, issue the
cluster-record delete (whose error, if any, is returned). -/
def reconcileNode (r : nodeReconciler) (node : Node) (resp : ProviderResponses)
    (deleteErr : Option GoErr) : Option (CtrlResult × Option GoErr) × List TraceEv :=
  match nodeStatus r node resp with
  | (none, tr) => (none, tr)
  | (some (st, _e), tr) =>
    if st = providerNodeStatus.providerNodeStatusUnknown then
      (some (CtrlResult.mk true, none), tr)
    else
      let msg := ("Deleting node ".toList) ++ node.name ++
        (" because node status is ".toList) ++ st.String
      let tr1 := tr ++ [TraceEv.emitEvent ("Normal".toList) deleteNodeEvent msg]
      if r.dryRun = false then
        (some (CtrlResult.mk false, deleteErr), tr1 ++ [TraceEv.deleteNode node.name])
      else
        (some (CtrlResult.mk false, none), tr1)

/-- `getNodeReadyCondition`: the first condition whose type is `Ready`;
its absence is a hard error. -/
def getNodeReadyCondition (conds : List NodeCondition) : Except GoErr NodeCondition :=
  match conds.find? (fun c => c.condType == ("Ready".toList)) with
  | some c => Except.ok c
  | none =>
    Except.error (GoErr.goError ("unable to find NodeReady condition. something is wrong, bruh".toList))

/-- Outcome of the initial cluster-store fetch of the node record. -/
inductive GetNodeResult
  | found (node : Node)
  | notFoundErr
  | getErr (e : GoErr)
deriving DecidableEq

/-- `Reconcile`: fetch the node (a missing record is ignored, other fetch
errors are surfaced), require the Ready condition, and investigate only
nodes whose ready status is `False` or `Unknown`. -/
def Reconcile (r : nodeReconciler) (getRes : GetNodeResult) (resp : ProviderResponses)
    (deleteErr : Option GoErr) : Option (CtrlResult × Option GoErr) × List TraceEv :=
  match getRes with
  | GetNodeResult.notFoundErr => (some (CtrlResult.mk false, none), [])
  | GetNodeResult.getErr e => (some (CtrlResult.mk false, some e), [])
  | GetNodeResult.found node =>
    match getNodeReadyCondition node.conditions with
    | Except.error e => (some (CtrlResult.mk false, some e), [])
    | Except.ok cond =>
      if cond.status = ("False".toList) ∨ cond.status = ("Unknown".toList) then
        reconcileNode r node resp deleteErr
      else
        (some (CtrlResult.mk false, none), [])

/-- Spec-side definition (refinement target), following the spec's words:
the ordinal rendered with its leading zeros stripped, an all-zero ordinal
rendering as the single digit zero. -/
def stripLeadingZeros (s : GoStr) : GoStr :=
  match s.dropWhile (fun c => c == ('0' : Char)) with
  | [] => ['0']
  | r => r

/-- The event message built by `reconcileNode` for a to-be-deleted node. -/
def mkDeleteMsg (node : Node) (st : providerNodeStatus) : GoStr :=
  ("Deleting node ".toList) ++ node.name ++ (" because node status is ".toList) ++ st.String

theorem toNat_eq_char (c d : Char) (h : c.toNat = d.toNat) : c = d := by
  have h2 := congrArg Char.ofNat h
  rwa [Char.ofNat_toNat, Char.ofNat_toNat] at h2

theorem isDigitChar_bounds {c : Char} (h : isDigitChar c = true) :
    48 ≤ c.toNat ∧ c.toNat ≤ 57 := by
  simpa [isDigitChar] using h

theorem digitVal_lt {c : Char} (h : isDigitChar c = true) : digitVal c < 10 := by
  have hb := isDigitChar_bounds h
  unfold digitVal
  omega

theorem digitChar_digitVal {c : Char} (h : isDigitChar c = true) :
    digitChar (digitVal c) = c := by
  have hb := isDigitChar_bounds h
  unfold digitChar digitVal
  have h48 : 48 + (c.toNat - 48) = c.toNat := by omega
  rw [h48, Char.ofNat_toNat]

theorem digitVal_pos {c : Char} (h : isDigitChar c = true) (h0 : c ≠ ('0' : Char)) :
    1 ≤ digitVal c := by
  have hb := isDigitChar_bounds h
  by_contra hlt
  have hz : c.toNat = 48 := by unfold digitVal at hlt; omega
  exact h0 (toNat_eq_char c '0' (by rw [hz]; rfl))

theorem digitsVal_nil : digitsVal [] = 0 := rfl

theorem digitsVal_cons (c : Char) (t : GoStr) :
    digitsVal (c :: t) = t.foldl (fun a d => 10 * a + digitVal d) (digitVal c) := by
  simp [digitsVal]

theorem foldl_digit_ge (t : GoStr) : ∀ a : Nat, a ≤ t.foldl (fun a d => 10 * a + digitVal d) a := by
  induction t with
  | nil => intro a; simp
  | cons c t ih =>
    intro a
    calc a ≤ 10 * a + digitVal c := by omega
    _ ≤ t.foldl (fun a d => 10 * a + digitVal d) (10 * a + digitVal c) := ih _
    _ = (c :: t).foldl (fun a d => 10 * a + digitVal d) a := by simp

theorem digitsVal_pos {c : Char} (t : GoStr) (h : isDigitChar c = true)
    (h0 : c ≠ ('0' : Char)) : 0 < digitsVal (c :: t) := by
  have h1 := digitVal_pos h h0
  have h2 := foldl_digit_ge t (digitVal c)
  rw [digitsVal_cons]
  omega

theorem foldl_digit_lt (t : GoStr) : ∀ a : Nat, t.all isDigitChar = true →
    t.foldl (fun a d => 10 * a + digitVal d) a < (a + 1) * 10 ^ t.length := by
  induction t with
  | nil => intro a _; simp
  | cons c t ih =>
    intro a hall
    rw [List.all_cons, Bool.and_eq_true] at hall
    have hd := digitVal_lt hall.1
    have hstep := ih (10 * a + digitVal c) hall.2
    have hmul : (10 * a + digitVal c + 1) * 10 ^ t.length ≤ (a + 1) * 10 ^ (t.length + 1) := by
      have h1 : 10 * a + digitVal c + 1 ≤ 10 * (a + 1) := by omega
      calc (10 * a + digitVal c + 1) * 10 ^ t.length ≤ 10 * (a + 1) * 10 ^ t.length :=
            Nat.mul_le_mul_right _ h1
      _ = (a + 1) * 10 ^ (t.length + 1) := by ring
    have : (c :: t).foldl (fun a d => 10 * a + digitVal d) a
        = t.foldl (fun a d => 10 * a + digitVal d) (10 * a + digitVal c) := by simp
    rw [this, List.length_cons]
    omega

theorem digitsVal_lt (s : GoStr) (h : s.all isDigitChar = true) :
    digitsVal s < 10 ^ s.length := by
  have := foldl_digit_lt s 0 h
  simpa [digitsVal] using this

theorem digitsVal_append_singleton (s : GoStr) (c : Char) :
    digitsVal (s ++ [c]) = 10 * digitsVal s + digitVal c := by
  simp [digitsVal, List.foldl_append]

theorem formatCore_eq : ∀ (n fuel : Nat) (acc : GoStr), n < fuel →
    formatCore fuel n acc = goFormatUint n ++ acc := by
  intro n
  induction n using Nat.strong_induction_on with
  | _ n ih =>
    intro fuel acc hlt
    match fuel, hlt with
    | fuel + 1, _ =>
      by_cases h10 : n < 10
      · simp [formatCore, goFormatUint, h10]
      · have hn0 : 0 < n := by omega
        have hdiv : n / 10 < n := Nat.div_lt_self hn0 (by omega)
        have hfuel : n / 10 < fuel := by omega
        have hself : n / 10 < n + 1 := by omega
        rw [formatCore]
        rw [if_neg h10]
        rw [ih (n / 10) hdiv fuel _ hfuel]
        conv_rhs =>
          rw [goFormatUint, formatCore, if_neg h10, ih (n / 10) hdiv n _ (by omega)]
        simp

theorem goFormatUint_lt {n : Nat} (h : n < 10) : goFormatUint n = [digitChar n] := by
  simp [goFormatUint, formatCore, h]

theorem goFormatUint_ge {n : Nat} (h : 10 ≤ n) :
    goFormatUint n = goFormatUint (n / 10) ++ [digitChar (n % 10)] := by
  have hn0 : 0 < n := by omega
  have hdiv : n / 10 < n := Nat.div_lt_self hn0 (by omega)
  conv_lhs => rw [goFormatUint, formatCore, if_neg (by omega : ¬ n < 10)]
  rw [formatCore_eq (n / 10) n _ hdiv]

theorem goFormatUint_digitsVal : ∀ s : GoStr, s.all isDigitChar = true →
    (∀ c t, s = c :: t → c ≠ ('0' : Char)) → s ≠ [] →
    goFormatUint (digitsVal s) = s := by
  intro s
  induction s using List.reverseRecOn with
  | nil => intro _ _ hne; exact absurd rfl hne
  | append_singleton t c ih =>
    intro hall hhead _
    rw [List.all_append, Bool.and_eq_true] at hall
    have hct : isDigitChar c = true := by simpa using hall.2
    match t, hall, hhead, ih with
    | [], _, hhead, _ =>
      have hc0 : c ≠ ('0' : Char) := hhead c [] rfl
      have hv : digitsVal ([] ++ [c]) = digitVal c := by
        simp [digitsVal, digitVal]
      rw [hv, goFormatUint_lt (digitVal_lt hct), digitChar_digitVal hct]
      simp
    | c0 :: t0, hall, hhead, ih =>
      have hc00 : c0 ≠ ('0' : Char) := hhead c0 (t0 ++ [c]) rfl
      have hpos : 0 < digitsVal (c0 :: t0) := by
        have : isDigitChar c0 = true := by
          have := hall.1
          rw [List.all_cons, Bool.and_eq_true] at this
          exact this.1
        exact digitsVal_pos t0 this hc00
      have hv : digitsVal ((c0 :: t0) ++ [c]) = 10 * digitsVal (c0 :: t0) + digitVal c :=
        digitsVal_append_singleton _ _
      have hd : digitVal c < 10 := digitVal_lt hct
      have hge : 10 ≤ 10 * digitsVal (c0 :: t0) + digitVal c := by omega
      rw [hv, goFormatUint_ge hge]
      have hdiv : (10 * digitsVal (c0 :: t0) + digitVal c) / 10 = digitsVal (c0 :: t0) := by
        omega
      have hmod : (10 * digitsVal (c0 :: t0) + digitVal c) % 10 = digitVal c := by
        omega
      rw [hdiv, hmod, digitChar_digitVal hct,
        ih hall.1 (fun c1 t1 heq => by cases heq; exact hc00) (by simp)]

theorem digitsVal_dropWhile_zero : ∀ s : GoStr,
    digitsVal s = digitsVal (s.dropWhile (fun c => c == ('0' : Char))) := by
  intro s
  induction s with
  | nil => rfl
  | cons c t ih =>
    by_cases h : c = ('0' : Char)
    · subst h
      rw [List.dropWhile_cons_of_pos (by simp)]
      rw [← ih, digitsVal_cons]
      have : digitVal '0' = 0 := by decide
      simp [this, digitsVal]
    · rw [List.dropWhile_cons_of_neg (by simp [h])]

theorem dropWhile_head_not {p : Char → Bool} : ∀ (s : GoStr) (c : Char) (t : GoStr),
    s.dropWhile p = c :: t → p c = false := by
  intro s
  induction s with
  | nil => intro c t h; simp at h
  | cons a s ih =>
    intro c t h
    by_cases hp : p a = true
    · rw [List.dropWhile_cons_of_pos hp] at h
      exact ih c t h
    · rw [List.dropWhile_cons_of_neg hp] at h
      cases h
      simpa using hp

theorem mem_dropWhile {p : Char → Bool} : ∀ (s : GoStr) (x : Char),
    x ∈ s.dropWhile p → x ∈ s := by
  intro s
  induction s with
  | nil => intro x h; simp at h
  | cons a s ih =>
    intro x h
    by_cases hp : p a = true
    · rw [List.dropWhile_cons_of_pos hp] at h
      exact List.mem_cons_of_mem a (ih x h)
    · rwa [List.dropWhile_cons_of_neg hp] at h

theorem goFormatUint_stripLeadingZeros (s : GoStr)
    (hall : s.all isDigitChar = true) :
    goFormatUint (digitsVal s) = stripLeadingZeros s := by
  rw [digitsVal_dropWhile_zero s]
  unfold stripLeadingZeros
  rcases hr : s.dropWhile (fun c => c == ('0' : Char)) with _ | ⟨c, t⟩
  · decide
  · have hmem : ∀ x ∈ c :: t, isDigitChar x = true := by
      intro x hx
      have hxs : x ∈ s := mem_dropWhile s x (by rw [hr]; exact hx)
      exact (List.all_eq_true.mp hall) x hxs
    have hallr : (c :: t).all isDigitChar = true := List.all_eq_true.mpr hmem
    have hc0 : c ≠ ('0' : Char) := by
      have := dropWhile_head_not s c t hr
      simpa using this
    exact goFormatUint_digitsVal (c :: t) hallr
      (fun c1 t1 heq => by cases heq; exact hc0) (by simp)

theorem goSliceFrom_of_le {name : GoStr} (h : 6 ≤ name.length) :
    goSliceFrom name ((name.length : Int) - 6) = some (name.drop (name.length - 6)) := by
  unfold goSliceFrom
  rw [if_pos (by constructor <;> omega)]
  have ht : ((name.length : Int) - 6).toNat = name.length - 6 := by omega
  rw [ht]

theorem extractAzureVMID_of_le {name : GoStr} (h : 6 ≤ name.length) :
    extractAzureVMID name
      = some (match goParseUint (name.drop (name.length - 6)) with
              | none => Except.error GoErr.invalidVMName
              | some u => Except.ok (goFormatUint u)) := by
  unfold extractAzureVMID
  rw [goSliceFrom_of_le h]
  rcases hp : goParseUint (name.drop (name.length - 6)) with _ | u <;> simp [hp]

theorem length_drop_suffix {name : GoStr} (h : 6 ≤ name.length) :
    (name.drop (name.length - 6)).length = 6 := by
  rw [List.length_drop]
  omega

/-- C4: for names longer than six characters, ordinal parsing succeeds iff
the last six characters are all decimal digits, in which case the produced
ordinal is their decimal value with leading zeros stripped, and the scale-set
identifier is the name minus its last six characters; names of length at most
six fail with `ErrInvalidVMName`. -/
theorem azureDerivation_spec (name : GoStr) :
    (name.length ≤ 6 → extractAzureScaleSet name = Except.error GoErr.invalidVMName) ∧
    (6 < name.length →
      extractAzureScaleSet name = Except.ok (name.take (name.length - 6)) ∧
      ((name.drop (name.length - 6)).all isDigitChar = true →
        extractAzureVMID name
          = some (Except.ok (stripLeadingZeros (name.drop (name.length - 6))))) ∧
      ((name.drop (name.length - 6)).all isDigitChar = false →
        extractAzureVMID name = some (Except.error GoErr.invalidVMName))) := by
  constructor
  · intro h
    unfold extractAzureScaleSet
    rw [if_pos h]
  · intro h
    have h6 : 6 ≤ name.length := by omega
    refine ⟨?_, ?_, ?_⟩
    · unfold extractAzureScaleSet
      rw [if_neg (by omega)]
    · intro hall
      rw [extractAzureVMID_of_le h6]
      have hne : name.drop (name.length - 6) ≠ [] := by
        intro hnil
        have := length_drop_suffix h6
        rw [hnil] at this
        simp at this
      have hlt : digitsVal (name.drop (name.length - 6)) < 2 ^ 64 := by
        have h1 := digitsVal_lt _ hall
        rw [length_drop_suffix h6] at h1
        calc digitsVal (name.drop (name.length - 6)) < 10 ^ 6 := h1
        _ < 2 ^ 64 := by norm_num
      unfold goParseUint
      rw [if_neg hne, if_pos hall, if_pos hlt]
      show some (Except.ok (goFormatUint (digitsVal (name.drop (name.length - 6)))))
          = some (Except.ok (stripLeadingZeros (name.drop (name.length - 6))))
      rw [goFormatUint_stripLeadingZeros _ hall]
    · intro hall
      rw [extractAzureVMID_of_le h6]
      unfold goParseUint
      by_cases hnil : name.drop (name.length - 6) = []
      · rw [if_pos hnil]
      · rw [if_neg hnil, if_neg (by rw [hall]; exact Bool.false_ne_true)]

/-- Witness for C4 at the spec's own scenarios: a scale-set name with ordinal
`000001` yields scale set `aks-agentpool-34751183-vmss` and ordinal `1`;
ordinal `001001` yields `1001`; a short name and a non-numeric suffix fail. -/
theorem azureDerivation_spec_witness :
    extractAzureScaleSet ("aks-agentpool-34751183-vmss000001".toList)
      = Except.ok ("aks-agentpool-34751183-vmss".toList) ∧
    extractAzureVMID ("aks-agentpool-34751183-vmss000001".toList)
      = some (Except.ok ("1".toList)) ∧
    extractAzureVMID ("aks-agentpool-34751183-vmss001001".toList)
      = some (Except.ok ("1001".toList)) ∧
    extractAzureScaleSet ("1234".toList) = Except.error GoErr.invalidVMName ∧
    extractAzureVMID ("aks-agentpool-34751183-vmssMyCustomName".toList)
      = some (Except.error GoErr.invalidVMName) :=
  ⟨(((azureDerivation_spec _).2 (by decide)).1).trans (by decide),
   ((((azureDerivation_spec _).2 (by decide)).2.1) (by decide)).trans (by decide),
   ((((azureDerivation_spec _).2 (by decide)).2.1) (by decide)).trans (by decide),
   (azureDerivation_spec _).1 (by decide),
   (((azureDerivation_spec _).2 (by decide)).2.2) (by decide)⟩

theorem list_len4 {α : Type} (l : List α) (h : l.length = 4) :
    ∃ a b c d, l = [a, b, c, d] := by
  rcases l with _ | ⟨a, _ | ⟨b, _ | ⟨c, _ | ⟨d, _ | ⟨e, rest⟩⟩⟩⟩⟩ <;> simp at h
  exact ⟨a, b, c, d, rfl⟩

/-- C3: the AWS derivation returns `aws:///i-<fourth segment>` exactly when
the node name splits on hyphens into four segments whose third is the literal
`i`; every other shape yields `ErrInvalidVMName`. -/
theorem awsProviderIDBuilder_spec (cloud : Cloud) (node : Node) :
    (∀ s1 s2 s4, goSplit '-' node.name = [s1, s2, ("i".toList), s4] →
      awsProviderIDBuilder cloud node = some (Except.ok (("aws:///i-".toList) ++ s4))) ∧
    ((¬ ∃ s1 s2 s4, goSplit '-' node.name = [s1, s2, ("i".toList), s4]) →
      awsProviderIDBuilder cloud node = some (Except.error GoErr.invalidVMName)) := by
  constructor
  · intro s1 s2 s4 h
    unfold awsProviderIDBuilder
    rw [h]
    rw [if_neg (by simp)]
    rfl
  · intro hne
    unfold awsProviderIDBuilder
    by_cases hc : (goSplit '-' node.name).length ≠ 4 ∨
        (goSplit '-' node.name).getD 2 [] ≠ ("i".toList)
    · rw [if_pos hc]
    · push_neg at hc
      obtain ⟨hlen, hi⟩ := hc
      exfalso
      obtain ⟨a, b, c, d, hsp⟩ := list_len4 _ hlen
      rw [hsp] at hi
      simp at hi
      refine hne ⟨a, b, d, ?_⟩
      rw [hsp, hi]
      rfl

/-- Witness for C3 at the spec's scenario names. -/
theorem awsProviderIDBuilder_spec_witness :
    awsProviderIDBuilder (Cloud.mk ("aws".toList) CloudKind.otherKind)
        (Node.mk ("k8s-controllers-i-042988b09f6a493cc".toList) [] [])
      = some (Except.ok ("aws:///i-042988b09f6a493cc".toList)) ∧
    awsProviderIDBuilder (Cloud.mk ("aws".toList) CloudKind.otherKind)
        (Node.mk ("042988b09f6a493cc".toList) [] [])
      = some (Except.error GoErr.invalidVMName) :=
  ⟨((awsProviderIDBuilder_spec _ _).1 ("k8s".toList) ("controllers".toList)
      ("042988b09f6a493cc".toList) (by decide)).trans (by decide),
   (awsProviderIDBuilder_spec _ _).2 (by
      rintro ⟨s1, s2, s4, h⟩
      have hlen := congrArg List.length h
      rw [show goSplit '-' (Node.mk ("042988b09f6a493cc".toList) [] []).name
          = [("042988b09f6a493cc".toList)] from by decide] at hlen
      simp at hlen)⟩

/-- C10: the azure builder is total — the length guard in
`extractAzureScaleSet` runs before the fixed-width suffix slice, so a name of
length at most six fails cleanly with `ErrInvalidVMName` — even though
`extractAzureVMID` applied directly to a name shorter than six characters
would slice out of range (modelled as `none`). -/
theorem azureProviderIDBuilder_total (cloud : Cloud) (node : Node) :
    azureProviderIDBuilder cloud node ≠ none ∧
    (∀ cfg, cloud.kind = CloudKind.azureCloud cfg → node.name.length ≤ 6 →
      azureProviderIDBuilder cloud node = some (Except.error GoErr.invalidVMName)) ∧
    (node.name.length < 6 → extractAzureVMID node.name = none) := by
  refine ⟨?_, ?_, ?_⟩
  · rcases hkind : cloud.kind with cfg | _
    · rcases hss : extractAzureScaleSet node.name with e | scaleset
      · simp [azureProviderIDBuilder, hkind, hss]
      · have hlen : ¬ node.name.length ≤ 6 := by
          intro hle
          unfold extractAzureScaleSet at hss
          rw [if_pos hle] at hss
          cases hss
        have h6 : 6 ≤ node.name.length := by omega
        rcases hp : goParseUint (node.name.drop (node.name.length - 6)) with _ | u
        · simp [azureProviderIDBuilder, hkind, hss, extractAzureVMID_of_le h6, hp]
        · simp [azureProviderIDBuilder, hkind, hss, extractAzureVMID_of_le h6, hp]
          split <;> simp
    · simp [azureProviderIDBuilder, hkind]
  · intro cfg hkind hlen
    unfold azureProviderIDBuilder
    rw [hkind]
    unfold extractAzureScaleSet
    rw [if_pos hlen]
  · intro hlen
    unfold extractAzureVMID goSliceFrom
    rw [if_neg (by omega)]

/-- Witness for C10: a four-character name is rejected by the azure builder
while a direct call to `extractAzureVMID` on it would panic. -/
theorem azureProviderIDBuilder_total_witness :
    azureProviderIDBuilder
        (Cloud.mk ("azure".toList)
          (CloudKind.azureCloud (AzureConfig.mk [] [] ("vmss".toList))))
        (Node.mk ("1234".toList) [] [])
      = some (Except.error GoErr.invalidVMName) ∧
    extractAzureVMID ("1234".toList) = none :=
  ⟨(azureProviderIDBuilder_total
      (Cloud.mk ("azure".toList)
        (CloudKind.azureCloud (AzureConfig.mk [] [] ("vmss".toList))))
      (Node.mk ("1234".toList) [] [])).2.1
      (AzureConfig.mk [] [] ("vmss".toList)) rfl (by decide),
   (azureProviderIDBuilder_total
      (Cloud.mk ("azure".toList)
        (CloudKind.azureCloud (AzureConfig.mk [] [] ("vmss".toList))))
      (Node.mk ("1234".toList) [] [])).2.2 (by decide)⟩

theorem getProviderID_trace (cloud : Cloud) (node : Node) :
    (getProviderID cloud node).2 = [] ∨ (getProviderID cloud node).2 = [TraceEv.derive] := by
  unfold getProviderID
  split <;> simp


theorem nodeStatus_cases (r : nodeReconciler) (node : Node) (resp : ProviderResponses) :
    (∃ tr, getProviderID r.cloud node = (none, tr) ∧ nodeStatus r node resp = (none, tr)) ∨
    (∃ e tr, getProviderID r.cloud node = (some (Except.error e), tr) ∧
      nodeStatus r node resp
        = (some (providerNodeStatus.providerNodeStatusUnknown, some e), tr)) ∨
    (∃ pid tr, getProviderID r.cloud node = (some (Except.ok pid), tr) ∧
      ((isFatal resp.existsRes.err = true ∧
          nodeStatus r node resp
            = (some (providerNodeStatus.providerNodeStatusUnknown, resp.existsRes.err),
               tr ++ [TraceEv.queryExists pid])) ∨
       (isFatal resp.existsRes.err = false ∧ resp.existsRes.val = false ∧
          nodeStatus r node resp
            = (some (providerNodeStatus.providerNodeStatusNotFound, none),
               tr ++ [TraceEv.queryExists pid])) ∨
       (isFatal resp.existsRes.err = false ∧ resp.existsRes.val = true ∧
          ((isFatal resp.shutdownRes.err = true ∧
              nodeStatus r node resp
                = (some (providerNodeStatus.providerNodeStatusUnknown, resp.shutdownRes.err),
                   tr ++ [TraceEv.queryExists pid, TraceEv.queryShutdown pid])) ∨
           (isFatal resp.shutdownRes.err = false ∧ resp.shutdownRes.val = true ∧
              nodeStatus r node resp
                = (some (providerNodeStatus.providerNodeStatusShutdown, none),
                   tr ++ [TraceEv.queryExists pid, TraceEv.queryShutdown pid])) ∨
           (isFatal resp.shutdownRes.err = false ∧ resp.shutdownRes.val = false ∧
              nodeStatus r node resp
                = (some (providerNodeStatus.providerNodeStatusUnknown, none),
                   tr ++ [TraceEv.queryExists pid, TraceEv.queryShutdown pid])))))) := by
  rcases hgp : getProviderID r.cloud node with ⟨res, tr⟩
  rcases res with _ | res2
  · exact Or.inl ⟨tr, rfl, by unfold nodeStatus; rw [hgp]⟩
  rcases res2 with e | pid
  · exact Or.inr (Or.inl ⟨e, tr, rfl, by unfold nodeStatus; rw [hgp]⟩)
  · refine Or.inr (Or.inr ⟨pid, tr, rfl, ?_⟩)
    by_cases hf : isFatal resp.existsRes.err
    · exact Or.inl ⟨hf, by unfold nodeStatus; rw [hgp]; simp [hf]⟩
    · by_cases hv : resp.existsRes.val
      · refine Or.inr (Or.inr ⟨by simpa using hf, hv, ?_⟩)
        by_cases hf2 : isFatal resp.shutdownRes.err
        · refine Or.inl ⟨hf2, ?_⟩
          unfold nodeStatus
          rw [hgp]
          simp [hf, hf2, hv]
        · by_cases hv2 : resp.shutdownRes.val
          · refine Or.inr (Or.inl ⟨by simpa using hf2, hv2, ?_⟩)
            unfold nodeStatus
            rw [hgp]
            simp [hf, hf2, hv, hv2]
          · refine Or.inr (Or.inr ⟨by simpa using hf2, by simpa using hv2, ?_⟩)
            unfold nodeStatus
            rw [hgp]
            simp [hf, hf2, hv, hv2]
      · refine Or.inr (Or.inl ⟨by simpa using hf, by simpa using hv, ?_⟩)
        unfold nodeStatus
        rw [hgp]
        simp [hf, hv]

theorem reconcileNode_none (r : nodeReconciler) (node : Node) (resp : ProviderResponses)
    (dErr : Option GoErr) (tr : List TraceEv)
    (hns : nodeStatus r node resp = (none, tr)) :
    reconcileNode r node resp dErr = (none, tr) := by
  unfold reconcileNode
  rw [hns]

theorem reconcileNode_st (r : nodeReconciler) (node : Node) (resp : ProviderResponses)
    (dErr : Option GoErr) (st : providerNodeStatus) (e : Option GoErr) (tr : List TraceEv)
    (hns : nodeStatus r node resp = (some (st, e), tr)) :
    (st = providerNodeStatus.providerNodeStatusUnknown →
      reconcileNode r node resp dErr = (some (CtrlResult.mk true, none), tr)) ∧
    (st ≠ providerNodeStatus.providerNodeStatusUnknown → r.dryRun = false →
      reconcileNode r node resp dErr =
        (some (CtrlResult.mk false, dErr),
         tr ++ [TraceEv.emitEvent ("Normal".toList) deleteNodeEvent (mkDeleteMsg node st),
                TraceEv.deleteNode node.name])) ∧
    (st ≠ providerNodeStatus.providerNodeStatusUnknown → r.dryRun = true →
      reconcileNode r node resp dErr =
        (some (CtrlResult.mk false, none),
         tr ++ [TraceEv.emitEvent ("Normal".toList) deleteNodeEvent (mkDeleteMsg node st)])) := by
  refine ⟨?_, ?_, ?_⟩
  · intro hst
    unfold reconcileNode
    rw [hns]
    simp [hst]
  · intro hst hdry
    unfold reconcileNode
    rw [hns]
    simp [hst, hdry, mkDeleteMsg]
  · intro hst hdry
    unfold reconcileNode
    rw [hns]
    simp [hst, hdry, mkDeleteMsg]

theorem nodeStatus_trace_clean (r : nodeReconciler) (node : Node) (resp : ProviderResponses) :
    (∀ nm, TraceEv.deleteNode nm ∉ (nodeStatus r node resp).2) ∧
    (∀ a b m, TraceEv.emitEvent a b m ∉ (nodeStatus r node resp).2) := by
  have htr0 := getProviderID_trace r.cloud node
  rcases nodeStatus_cases r node resp with ⟨tr, hgp, hns⟩ | ⟨e, tr, hgp, hns⟩ |
    ⟨pid, tr, hgp, hcase⟩
  · rw [hgp] at htr0
    simp only at htr0
    rw [hns]
    rcases htr0 with h | h <;> subst h <;> simp
  · rw [hgp] at htr0
    simp only at htr0
    rw [hns]
    rcases htr0 with h | h <;> subst h <;> simp
  · rw [hgp] at htr0
    simp only at htr0
    rcases hcase with ⟨_, hns⟩ | ⟨_, _, hns⟩ | ⟨_, _, ⟨_, hns⟩ | ⟨_, _, hns⟩ | ⟨_, _, hns⟩⟩ <;>
      rw [hns] <;> rcases htr0 with h | h <;> subst h <;> simp

/-- C2: when the instance-existence query reports `false` without a fatal
error, classification returns `NotFound` at once and the instance-shutdown
query is never issued in that pass. -/
theorem nodeStatus_notFound_skips_shutdown (r : nodeReconciler) (node : Node)
    (resp : ProviderResponses) (pid : GoStr) (tr0 : List TraceEv)
    (hpid : getProviderID r.cloud node = (some (Except.ok pid), tr0))
    (hnofatal : isFatal resp.existsRes.err = false)
    (hval : resp.existsRes.val = false) :
    nodeStatus r node resp
      = (some (providerNodeStatus.providerNodeStatusNotFound, none),
         tr0 ++ [TraceEv.queryExists pid]) ∧
    (∀ q, TraceEv.queryShutdown q ∉ (nodeStatus r node resp).2) := by
  have hmain : nodeStatus r node resp
      = (some (providerNodeStatus.providerNodeStatusNotFound, none),
         tr0 ++ [TraceEv.queryExists pid]) := by
    unfold nodeStatus
    rw [hpid]
    simp [hnofatal, hval]
  refine ⟨hmain, ?_⟩
  have htr0 := getProviderID_trace r.cloud node
  rw [hpid] at htr0
  simp only at htr0
  intro q
  rw [hmain]
  rcases htr0 with h | h <;> subst h <;> simp

/-- Witness for C2: a node with a recorded provider ID whose existence query
returns a clean `false`. -/
theorem nodeStatus_notFound_skips_shutdown_witness :
    nodeStatus (nodeReconciler.mk (Cloud.mk ("aws".toList) CloudKind.otherKind) false)
        (Node.mk ("n1".toList) ("aws:///i-abc".toList) [])
        (ProviderResponses.mk (GoBoolErr.mk false none) (GoBoolErr.mk false none))
      = (some (providerNodeStatus.providerNodeStatusNotFound, none),
         [TraceEv.queryExists ("aws:///i-abc".toList)]) ∧
    (∀ q, TraceEv.queryShutdown q ∉
      (nodeStatus (nodeReconciler.mk (Cloud.mk ("aws".toList) CloudKind.otherKind) false)
        (Node.mk ("n1".toList) ("aws:///i-abc".toList) [])
        (ProviderResponses.mk (GoBoolErr.mk false none) (GoBoolErr.mk false none))).2) := by
  have h := nodeStatus_notFound_skips_shutdown
    (nodeReconciler.mk (Cloud.mk ("aws".toList) CloudKind.otherKind) false)
    (Node.mk ("n1".toList) ("aws:///i-abc".toList) [])
    (ProviderResponses.mk (GoBoolErr.mk false none) (GoBoolErr.mk false none))
    ("aws:///i-abc".toList) [] (by decide) (by decide) (by decide)
  exact ⟨h.1.trans (by decide), h.2⟩

/-- C5: a non-empty recorded `providerID` is returned unchanged, derivation
is never invoked (the trace is empty), and the result does not depend on the
provider context. -/
theorem getProviderID_stored (cloud cloud2 : Cloud) (node : Node)
    (h : node.providerID ≠ []) :
    getProviderID cloud node = (some (Except.ok node.providerID), []) ∧
    getProviderID cloud node = getProviderID cloud2 node := by
  constructor
  · unfold getProviderID
    rw [if_pos h]
  · unfold getProviderID
    rw [if_pos h, if_pos h]

/-- Witness for C5: a recorded identifier is handed back untouched under two
different cloud contexts. -/
theorem getProviderID_stored_witness :
    getProviderID (Cloud.mk ("aws".toList) CloudKind.otherKind)
        (Node.mk ("n1".toList) ("azure:///sub/x".toList) [])
      = (some (Except.ok ("azure:///sub/x".toList)), []) ∧
    getProviderID (Cloud.mk ("aws".toList) CloudKind.otherKind)
        (Node.mk ("n1".toList) ("azure:///sub/x".toList) [])
      = getProviderID (Cloud.mk ("azure".toList) CloudKind.otherKind)
        (Node.mk ("n1".toList) ("azure:///sub/x".toList) []) :=
  getProviderID_stored (Cloud.mk ("aws".toList) CloudKind.otherKind)
    (Cloud.mk ("azure".toList) CloudKind.otherKind)
    (Node.mk ("n1".toList) ("azure:///sub/x".toList) []) (by decide)

/-- C1: a cluster-record delete occurs in a pass only when that same pass's
provider queries reported a false existence flag or a true shutdown flag;
deletion never follows from cluster-reported health alone or from data of a
prior pass. -/
theorem reconcileNode_delete_requires_fresh_signal (r : nodeReconciler) (node : Node)
    (resp : ProviderResponses) (dErr : Option GoErr)
    (hdel : TraceEv.deleteNode node.name ∈ (reconcileNode r node resp dErr).2) :
    (∃ pid, TraceEv.queryExists pid ∈ (reconcileNode r node resp dErr).2 ∧
        resp.existsRes.val = false) ∨
    (∃ pid, TraceEv.queryShutdown pid ∈ (reconcileNode r node resp dErr).2 ∧
        resp.shutdownRes.val = true) := by
  have htr0 := getProviderID_trace r.cloud node
  rcases nodeStatus_cases r node resp with ⟨tr, hgp, hns⟩ | ⟨e, tr, hgp, hns⟩ |
    ⟨pid, tr, hgp, hcase⟩
  · rw [hgp] at htr0
    simp only at htr0
    rw [reconcileNode_none r node resp dErr tr hns] at hdel
    rcases htr0 with h | h <;> subst h <;> simp at hdel
  · rw [hgp] at htr0
    simp only at htr0
    rw [(reconcileNode_st r node resp dErr _ _ _ hns).1 rfl] at hdel
    rcases htr0 with h | h <;> subst h <;> simp at hdel
  · rw [hgp] at htr0
    simp only at htr0
    rcases hcase with ⟨_, hns⟩ | ⟨_, hval, hns⟩ | ⟨_, hval, hsub⟩
    · rw [(reconcileNode_st r node resp dErr _ _ _ hns).1 rfl] at hdel
      rcases htr0 with h | h <;> subst h <;> simp at hdel
    · rcases hdry : r.dryRun with _ | _
      · left
        refine ⟨pid, ?_, hval⟩
        rw [(reconcileNode_st r node resp dErr _ _ _ hns).2.1 (by simp) hdry]
        simp
      · rw [(reconcileNode_st r node resp dErr _ _ _ hns).2.2 (by simp) hdry] at hdel
        rcases htr0 with h | h <;> subst h <;> simp at hdel
    · rcases hsub with ⟨_, hns⟩ | ⟨_, hval2, hns⟩ | ⟨_, _, hns⟩
      · rw [(reconcileNode_st r node resp dErr _ _ _ hns).1 rfl] at hdel
        rcases htr0 with h | h <;> subst h <;> simp at hdel
      · rcases hdry : r.dryRun with _ | _
        · right
          refine ⟨pid, ?_, hval2⟩
          rw [(reconcileNode_st r node resp dErr _ _ _ hns).2.1 (by simp) hdry]
          simp
        · rw [(reconcileNode_st r node resp dErr _ _ _ hns).2.2 (by simp) hdry] at hdel
          rcases htr0 with h | h <;> subst h <;> simp at hdel
      · rw [(reconcileNode_st r node resp dErr _ _ _ hns).1 rfl] at hdel
        rcases htr0 with h | h <;> subst h <;> simp at hdel

/-- Witness for C1: a live pass that deletes after a false existence flag. -/
theorem reconcileNode_delete_requires_fresh_signal_witness :
    TraceEv.deleteNode ("n1".toList) ∈
      (reconcileNode (nodeReconciler.mk (Cloud.mk ("aws".toList) CloudKind.otherKind) false)
        (Node.mk ("n1".toList) ("aws:///i-abc".toList) [])
        (ProviderResponses.mk (GoBoolErr.mk false none) (GoBoolErr.mk false none)) none).2 ∧
    ((∃ pid, TraceEv.queryExists pid ∈
        (reconcileNode (nodeReconciler.mk (Cloud.mk ("aws".toList) CloudKind.otherKind) false)
          (Node.mk ("n1".toList) ("aws:///i-abc".toList) [])
          (ProviderResponses.mk (GoBoolErr.mk false none) (GoBoolErr.mk false none)) none).2 ∧
        (ProviderResponses.mk (GoBoolErr.mk false none) (GoBoolErr.mk false none)).existsRes.val
          = false) ∨
     (∃ pid, TraceEv.queryShutdown pid ∈
        (reconcileNode (nodeReconciler.mk (Cloud.mk ("aws".toList) CloudKind.otherKind) false)
          (Node.mk ("n1".toList) ("aws:///i-abc".toList) [])
          (ProviderResponses.mk (GoBoolErr.mk false none) (GoBoolErr.mk false none)) none).2 ∧
        (ProviderResponses.mk (GoBoolErr.mk false none)
          (GoBoolErr.mk false none)).shutdownRes.val = true)) :=
  ⟨by decide,
   reconcileNode_delete_requires_fresh_signal
     (nodeReconciler.mk (Cloud.mk ("aws".toList) CloudKind.otherKind) false)
     (Node.mk ("n1".toList) ("aws:///i-abc".toList) [])
     (ProviderResponses.mk (GoBoolErr.mk false none) (GoBoolErr.mk false none)) none (by decide)⟩

theorem Reconcile_found_ok (r : nodeReconciler) (node : Node) (resp : ProviderResponses)
    (dErr : Option GoErr) (cond : NodeCondition)
    (hcond : getNodeReadyCondition node.conditions = Except.ok cond)
    (hready : cond.status = ("False".toList) ∨ cond.status = ("Unknown".toList)) :
    Reconcile r (GetNodeResult.found node) resp dErr = reconcileNode r node resp dErr := by
  have hred : Reconcile r (GetNodeResult.found node) resp dErr
      = (match getNodeReadyCondition node.conditions with
        | Except.error e => (some (CtrlResult.mk false, some e), ([] : List TraceEv))
        | Except.ok cond =>
          if cond.status = ("False".toList) ∨ cond.status = ("Unknown".toList) then
            reconcileNode r node resp dErr
          else (some (CtrlResult.mk false, none), [])) := rfl
  rw [hred, hcond]
  exact if_pos hready

/-- C6: on a node whose Ready condition is `False` or `Unknown`, a failed
identifier derivation or an `Unknown` classification ends the pass with a
requeue (`Requeue = true`, nil error), with no delete call and no event
emission. -/
theorem reconcile_unknown_requeues (r : nodeReconciler) (node : Node)
    (resp : ProviderResponses) (dErr : Option GoErr) (cond : NodeCondition)
    (hcond : getNodeReadyCondition node.conditions = Except.ok cond)
    (hready : cond.status = ("False".toList) ∨ cond.status = ("Unknown".toList))
    (hunk : (∃ e2, (getProviderID r.cloud node).1 = some (Except.error e2)) ∨
            (∃ e2 tr2, nodeStatus r node resp
              = (some (providerNodeStatus.providerNodeStatusUnknown, e2), tr2))) :
    ∃ tr, Reconcile r (GetNodeResult.found node) resp dErr
        = (some (CtrlResult.mk true, none), tr) ∧
      (∀ nm, TraceEv.deleteNode nm ∉ tr) ∧ (∀ a b m, TraceEv.emitEvent a b m ∉ tr) := by
  have hns : ∃ e2 tr2, nodeStatus r node resp
      = (some (providerNodeStatus.providerNodeStatusUnknown, e2), tr2) := by
    rcases hunk with ⟨e2, hgp1⟩ | hok
    · rcases nodeStatus_cases r node resp with ⟨tr, hgp, hns⟩ | ⟨e, tr, hgp, hns⟩ |
        ⟨pid, tr, hgp, _⟩
      · rw [hgp] at hgp1
        simp at hgp1
      · exact ⟨some e, tr, hns⟩
      · rw [hgp] at hgp1
        simp at hgp1
    · exact hok
  obtain ⟨e2, tr2, hns⟩ := hns
  have hclean := nodeStatus_trace_clean r node resp
  rw [hns] at hclean
  simp only at hclean
  refine ⟨tr2, ?_, hclean.1, hclean.2⟩
  rw [Reconcile_found_ok r node resp dErr cond hcond hready]
  exact (reconcileNode_st r node resp dErr _ _ _ hns).1 rfl

/-- Witness for C6: ready condition `Unknown`, derivation fails with
`ProviderNotSupported` (unsupported provider name), pass requeues. -/
theorem reconcile_unknown_requeues_witness :
    ∃ tr, Reconcile (nodeReconciler.mk (Cloud.mk ("gcp".toList) CloudKind.otherKind) false)
        (GetNodeResult.found (Node.mk ("n1".toList) []
          [NodeCondition.mk ("Ready".toList) ("Unknown".toList)]))
        (ProviderResponses.mk (GoBoolErr.mk false none) (GoBoolErr.mk false none)) none
        = (some (CtrlResult.mk true, none), tr) ∧
      (∀ nm, TraceEv.deleteNode nm ∉ tr) ∧ (∀ a b m, TraceEv.emitEvent a b m ∉ tr) :=
  reconcile_unknown_requeues
    (nodeReconciler.mk (Cloud.mk ("gcp".toList) CloudKind.otherKind) false)
    (Node.mk ("n1".toList) [] [NodeCondition.mk ("Ready".toList) ("Unknown".toList)])
    (ProviderResponses.mk (GoBoolErr.mk false none) (GoBoolErr.mk false none)) none
    (NodeCondition.mk ("Ready".toList) ("Unknown".toList)) (by decide)
    (Or.inr (by decide)) (Or.inl ⟨GoErr.providerNotSupported, by decide⟩)

/-- C7: with dry-run enabled, a pass that reaches the deletion decision makes
no delete call, still emits exactly one event, and completes successfully. -/
theorem reconcileNode_dryRun_skips_delete (r : nodeReconciler) (node : Node)
    (resp : ProviderResponses) (dErr : Option GoErr) (st : providerNodeStatus)
    (e : Option GoErr) (tr : List TraceEv)
    (hdry : r.dryRun = true)
    (hns : nodeStatus r node resp = (some (st, e), tr))
    (hst : st ≠ providerNodeStatus.providerNodeStatusUnknown) :
    reconcileNode r node resp dErr =
      (some (CtrlResult.mk false, none),
       tr ++ [TraceEv.emitEvent ("Normal".toList) deleteNodeEvent (mkDeleteMsg node st)]) ∧
    (∀ nm, TraceEv.deleteNode nm ∉ (reconcileNode r node resp dErr).2) ∧
    (reconcileNode r node resp dErr).2.countP (fun ev => isEmitEv ev) = 1 := by
  have hclean := nodeStatus_trace_clean r node resp
  rw [hns] at hclean
  simp only at hclean
  have hmain := (reconcileNode_st r node resp dErr _ _ _ hns).2.2 hst hdry
  refine ⟨hmain, ?_, ?_⟩
  · intro nm
    rw [hmain]
    simp only [List.mem_append, List.mem_singleton]
    rintro (h | h)
    · exact hclean.1 nm h
    · cases h
  · rw [hmain]
    simp only [List.countP_append]
    have h0 : tr.countP (fun ev => isEmitEv ev) = 0 := by
      rw [List.countP_eq_zero]
      intro ev hev
      rcases ev with _ | p | p | ⟨a, b, m⟩ | nm <;> simp [isEmitEv]
      exact absurd hev (hclean.2 a b m)
    rw [h0]
    rfl

/-- Witness for C7: dry-run pass over a `NotFound` classification emits the
event and skips the delete. -/
theorem reconcileNode_dryRun_skips_delete_witness :
    reconcileNode (nodeReconciler.mk (Cloud.mk ("aws".toList) CloudKind.otherKind) true)
        (Node.mk ("n1".toList) ("aws:///i-abc".toList) [])
        (ProviderResponses.mk (GoBoolErr.mk false none) (GoBoolErr.mk false none)) none =
      (some (CtrlResult.mk false, none),
       [TraceEv.queryExists ("aws:///i-abc".toList),
        TraceEv.emitEvent ("Normal".toList) ("DeletingNode".toList)
          ("Deleting node n1 because node status is Not Found".toList)]) ∧
    (∀ nm, TraceEv.deleteNode nm ∉
      (reconcileNode (nodeReconciler.mk (Cloud.mk ("aws".toList) CloudKind.otherKind) true)
        (Node.mk ("n1".toList) ("aws:///i-abc".toList) [])
        (ProviderResponses.mk (GoBoolErr.mk false none) (GoBoolErr.mk false none)) none).2) ∧
    (reconcileNode (nodeReconciler.mk (Cloud.mk ("aws".toList) CloudKind.otherKind) true)
        (Node.mk ("n1".toList) ("aws:///i-abc".toList) [])
        (ProviderResponses.mk (GoBoolErr.mk false none) (GoBoolErr.mk false none))
        none).2.countP (fun ev => isEmitEv ev) = 1 := by
  have h := reconcileNode_dryRun_skips_delete
    (nodeReconciler.mk (Cloud.mk ("aws".toList) CloudKind.otherKind) true)
    (Node.mk ("n1".toList) ("aws:///i-abc".toList) [])
    (ProviderResponses.mk (GoBoolErr.mk false none) (GoBoolErr.mk false none)) none
    providerNodeStatus.providerNodeStatusNotFound none
    [TraceEv.queryExists ("aws:///i-abc".toList)] rfl (by decide) (by decide)
  exact ⟨h.1.trans (by decide), h.2.1, h.2.2⟩

/-- Counterexample to C8 as stated: with a tolerated not-found-shaped error
and a false existence flag, classification returns `NotFound` and the
shutdown check is never reached — it does not "fall through to the shutdown
check". -/
theorem nodeStatus_tolerated_error_counterexample :
    isAWSNotFoundErr (GoErr.providerErr ("instance i-x does not exist".toList)) = true ∧
    nodeStatus (nodeReconciler.mk (Cloud.mk ("aws".toList) CloudKind.otherKind) false)
        (Node.mk ("n1".toList) ("aws:///i-x".toList) [])
        (ProviderResponses.mk
          (GoBoolErr.mk false (some (GoErr.providerErr ("instance i-x does not exist".toList))))
          (GoBoolErr.mk false none))
      = (some (providerNodeStatus.providerNodeStatusNotFound, none),
         [TraceEv.queryExists ("aws:///i-x".toList)]) ∧
    (∀ q, TraceEv.queryShutdown q ∉
      (nodeStatus (nodeReconciler.mk (Cloud.mk ("aws".toList) CloudKind.otherKind) false)
        (Node.mk ("n1".toList) ("aws:///i-x".toList) [])
        (ProviderResponses.mk
          (GoBoolErr.mk false (some (GoErr.providerErr ("instance i-x does not exist".toList))))
          (GoBoolErr.mk false none))).2) := by
  refine ⟨by decide, by decide, ?_⟩
  intro q
  show TraceEv.queryShutdown q ∉ [TraceEv.queryExists ("aws:///i-x".toList)]
  simp

/-- C8 (amended): a not-found-shaped existence-query error is treated as
inconclusive, never aborting classification with `Unknown` plus that error;
the pass proceeds to the existence-flag check, returning `NotFound` when the
reported flag is false and reaching the shutdown check only when it is
true. -/
theorem nodeStatus_tolerated_error (r : nodeReconciler) (node : Node)
    (resp : ProviderResponses) (pid : GoStr) (tr0 : List TraceEv) (e : GoErr)
    (hpid : getProviderID r.cloud node = (some (Except.ok pid), tr0))
    (herr : resp.existsRes.err = some e)
    (htol : isAWSNotFoundErr e = true) :
    (nodeStatus r node resp).1 ≠ some (providerNodeStatus.providerNodeStatusUnknown, some e) ∧
    (resp.existsRes.val = false →
      nodeStatus r node resp
        = (some (providerNodeStatus.providerNodeStatusNotFound, none),
           tr0 ++ [TraceEv.queryExists pid])) ∧
    (resp.existsRes.val = true →
      TraceEv.queryShutdown pid ∈ (nodeStatus r node resp).2) := by
  have hnofatal : isFatal resp.existsRes.err = false := by
    rw [herr]
    simp [isFatal, htol]
  refine ⟨?_, ?_, ?_⟩
  · unfold nodeStatus
    rw [hpid]
    by_cases hv : resp.existsRes.val
    · by_cases hf2 : isFatal resp.shutdownRes.err
      · simp only [hnofatal, hv, hf2]
        simp only [Bool.false_eq_true, if_false, if_true]
        intro hcontra
        simp at hcontra
        rw [hcontra] at hf2
        simp [isFatal, htol] at hf2
      · by_cases hv2 : resp.shutdownRes.val <;> simp [hnofatal, hv, hf2, hv2]
    · simp [hnofatal, hv]
  · intro hv
    unfold nodeStatus
    rw [hpid]
    simp [hnofatal, hv]
  · intro hv
    unfold nodeStatus
    rw [hpid]
    by_cases hf2 : isFatal resp.shutdownRes.err
    · simp [hnofatal, hv, hf2]
    · by_cases hv2 : resp.shutdownRes.val <;> simp [hnofatal, hv, hf2, hv2]

/-- Witness for the amended C8: both flag polarities under a tolerated
not-found-shaped error. -/
theorem nodeStatus_tolerated_error_witness :
    (nodeStatus (nodeReconciler.mk (Cloud.mk ("aws".toList) CloudKind.otherKind) false)
        (Node.mk ("n1".toList) ("aws:///i-x".toList) [])
        (ProviderResponses.mk
          (GoBoolErr.mk true (some (GoErr.providerErr ("instance i-x does not exist".toList))))
          (GoBoolErr.mk true none))).1
      ≠ some (providerNodeStatus.providerNodeStatusUnknown,
              some (GoErr.providerErr ("instance i-x does not exist".toList))) ∧
    TraceEv.queryShutdown ("aws:///i-x".toList) ∈
      (nodeStatus (nodeReconciler.mk (Cloud.mk ("aws".toList) CloudKind.otherKind) false)
        (Node.mk ("n1".toList) ("aws:///i-x".toList) [])
        (ProviderResponses.mk
          (GoBoolErr.mk true (some (GoErr.providerErr ("instance i-x does not exist".toList))))
          (GoBoolErr.mk true none))).2 := by
  have h := nodeStatus_tolerated_error
    (nodeReconciler.mk (Cloud.mk ("aws".toList) CloudKind.otherKind) false)
    (Node.mk ("n1".toList) ("aws:///i-x".toList) [])
    (ProviderResponses.mk
      (GoBoolErr.mk true (some (GoErr.providerErr ("instance i-x does not exist".toList))))
      (GoBoolErr.mk true none))
    ("aws:///i-x".toList) [] (GoErr.providerErr ("instance i-x does not exist".toList))
    (by decide) (by decide) (by decide)
  exact ⟨h.1, h.2.2 (by decide)⟩

/-- Counterexample to C9 as stated: a `NotFound` pass emits the message
rendering the status as `Not Found` (with a space), not `NotFound`. -/
theorem reconcileNode_notFound_message_counterexample :
    TraceEv.emitEvent ("Normal".toList) ("DeletingNode".toList)
        ("Deleting node n1 because node status is NotFound".toList)
      ∉ (reconcileNode (nodeReconciler.mk (Cloud.mk ("aws".toList) CloudKind.otherKind) false)
          (Node.mk ("n1".toList) ("aws:///i-abc".toList) [])
          (ProviderResponses.mk (GoBoolErr.mk false none) (GoBoolErr.mk false none)) none).2 ∧
    TraceEv.emitEvent ("Normal".toList) ("DeletingNode".toList)
        ("Deleting node n1 because node status is Not Found".toList)
      ∈ (reconcileNode (nodeReconciler.mk (Cloud.mk ("aws".toList) CloudKind.otherKind) false)
          (Node.mk ("n1".toList) ("aws:///i-abc".toList) [])
          (ProviderResponses.mk (GoBoolErr.mk false none) (GoBoolErr.mk false none)) none).2 := by
  constructor
  · decide
  · decide

/-- C9 (amended): a pass whose classification is `NotFound` records the
reason "node status is Not Found" (the status string carries a space) and a
`Shutdown` pass records "node status is Shutdown". -/
theorem reconcileNode_event_message (r : nodeReconciler) (node : Node)
    (resp : ProviderResponses) (dErr : Option GoErr) (st : providerNodeStatus)
    (e : Option GoErr) (tr : List TraceEv)
    (hns : nodeStatus r node resp = (some (st, e), tr)) :
    (st = providerNodeStatus.providerNodeStatusNotFound →
      TraceEv.emitEvent ("Normal".toList) deleteNodeEvent
          (("Deleting node ".toList) ++ node.name ++
            (" because node status is Not Found".toList))
        ∈ (reconcileNode r node resp dErr).2) ∧
    (st = providerNodeStatus.providerNodeStatusShutdown →
      TraceEv.emitEvent ("Normal".toList) deleteNodeEvent
          (("Deleting node ".toList) ++ node.name ++
            (" because node status is Shutdown".toList))
        ∈ (reconcileNode r node resp dErr).2) := by
  have hmsg1 : mkDeleteMsg node providerNodeStatus.providerNodeStatusNotFound
      = ("Deleting node ".toList) ++ node.name ++
        (" because node status is Not Found".toList) := by
    unfold mkDeleteMsg providerNodeStatus.String
    rw [List.append_assoc, List.append_assoc, List.append_assoc]
    rfl
  have hmsg2 : mkDeleteMsg node providerNodeStatus.providerNodeStatusShutdown
      = ("Deleting node ".toList) ++ node.name ++
        (" because node status is Shutdown".toList) := by
    unfold mkDeleteMsg providerNodeStatus.String
    rw [List.append_assoc, List.append_assoc, List.append_assoc]
    rfl
  constructor
  · intro hst
    subst hst
    rcases hdry : r.dryRun with _ | _
    · rw [(reconcileNode_st r node resp dErr _ _ _ hns).2.1 (by simp) hdry, hmsg1]
      simp
    · rw [(reconcileNode_st r node resp dErr _ _ _ hns).2.2 (by simp) hdry, hmsg1]
      simp
  · intro hst
    subst hst
    rcases hdry : r.dryRun with _ | _
    · rw [(reconcileNode_st r node resp dErr _ _ _ hns).2.1 (by simp) hdry, hmsg2]
      simp
    · rw [(reconcileNode_st r node resp dErr _ _ _ hns).2.2 (by simp) hdry, hmsg2]
      simp

/-- Witness for the amended C9 at a concrete `NotFound` pass. -/
theorem reconcileNode_event_message_witness :
    TraceEv.emitEvent ("Normal".toList) deleteNodeEvent
        (("Deleting node ".toList) ++ ("n1".toList) ++
          (" because node status is Not Found".toList))
      ∈ (reconcileNode (nodeReconciler.mk (Cloud.mk ("aws".toList) CloudKind.otherKind) false)
          (Node.mk ("n1".toList) ("aws:///i-abc".toList) [])
          (ProviderResponses.mk (GoBoolErr.mk false none) (GoBoolErr.mk false none)) none).2 :=
  (reconcileNode_event_message
    (nodeReconciler.mk (Cloud.mk ("aws".toList) CloudKind.otherKind) false)
    (Node.mk ("n1".toList) ("aws:///i-abc".toList) [])
    (ProviderResponses.mk (GoBoolErr.mk false none) (GoBoolErr.mk false none)) none
    providerNodeStatus.providerNodeStatusNotFound none
    [TraceEv.queryExists ("aws:///i-abc".toList)] (by decide)).1 rfl

end CloudLifecycle
